import Mathlib

/-
Shallow embedding of the Flask backend in src/app.py (a letter-writing
web service).  Each JSON endpoint handler is modelled as a pure function
from the parsed request body, the process configuration and the outcome
of the single external call (LLM API or SMTP relay) to the HTTP response
together with a trace of the external operations attempted.  String
templates are transcribed verbatim from the source (ASCII apostrophes
appear as \x27 escapes, other non-ASCII characters as \uXXXX escapes).
-/

namespace Prolet

/-- Models Python str.strip on a character list: drop leading and trailing
whitespace (space, tab, CR, LF). -/
def trimChars (l : List Char) : List Char :=
  ((l.dropWhile Char.isWhitespace).reverse.dropWhile Char.isWhitespace).reverse

/-- Models the Python string method strip() used throughout app.py. -/
def pyStrip (s : String) : String :=
  String.mk (trimChars s.data)

/-- Boolean test that the list pre is an initial segment of l. -/
def startsWithL : List Char → List Char → Bool
  | [], _ => true
  | _ :: _, [] => false
  | a :: as, b :: bs => a == b && startsWithL as bs

/-- Boolean test that the list needle occurs contiguously inside l. -/
def occursL (needle : List Char) : List Char → Bool
  | [] => startsWithL needle []
  | b :: bs => startsWithL needle (b :: bs) || occursL needle bs

/-- Models the Python expression needle in hay on strings. -/
def strContains (hay needle : String) : Bool :=
  occursL needle.data hay.data

/-- Boolean test that needle is a terminal segment of hay. -/
def strEndsWith (hay needle : String) : Bool :=
  startsWithL needle.data.reverse hay.data.reverse

/-- Parsed JSON object body: each field is present with a string value or
absent.  The handlers read the fields message, tone, letter and to with
dict.get defaulting as in app.py; the JSON key to is rendered here as
toAddr because to is reserved in Lean. -/
structure JsonObj where
  message : Option String
  tone : Option String
  letter : Option String
  toAddr : Option String
deriving DecidableEq

/-- Request body as seen by a handler.  The cases absent and notObject
model a request for which request.json raises (no/invalid JSON body) or
yields a non-dict value, so that the field access data.get raises inside
the try block of the handler; Flask/Python semantics send both to the
broad except branch. -/
inductive ReqBody where
  | absent
  | notObject
  | obj (data : JsonObj)
deriving DecidableEq

/-- JSON response body produced by jsonify in app.py: a single-key object. -/
inductive RespBody where
  | error (msg : String)
  | reply (msg : String)
  | success (msg : String)
deriving DecidableEq

/-- HTTP response: status code plus JSON body. -/
structure Resp where
  status : Nat
  body : RespBody
deriving DecidableEq

/-- External operations attempted by a handler, in order. -/
inductive Event where
  | llmCall (prompt : String)
  | smtpConnect (host : String) (port : Nat)
  | smtpStarttls
  | smtpLogin (user passwd : String)
  | smtpSend (sender rcpt subject content : String)
  | smtpClose
deriving DecidableEq

/-- Environment configuration read by send_email via os.getenv. -/
structure Config where
  mailUsername : Option String
  mailAppPassword : Option String
deriving DecidableEq

/-- Outcome of the SMTP with-block in send_email: either every call
succeeds, or one of starttls, login, send_message raises an exception
carrying the given text.  The with statement guarantees the close on
exit in every case. -/
inductive SmtpOutcome where
  | ok
  | failStarttls (e : String)
  | failLogin (e : String)
  | failSend (e : String)
deriving DecidableEq

/-- Template chosen for tone formal in app.py lines 55-83. -/
def formalTemplate : String :=
  "\nYou are Prolet, a professional letter-writing assistant.\n\nRespond in the **same language** as the user\x27s request.\n\nWrite a complete formal business letter using this exact structure:\n\n[Your Full Name]\n[Your Address]\n[City, State ZIP Code]\n\n[Date]\n\n[Recipient Full Name]\n[Recipient Title]\n[Company/Organization Name]\n[Recipient Address]\n\nDear [Mr./Ms./Mx. Last Name],\n\n[Professional, respectful tone. Clear purpose. 2–3 short paragraphs.]\n\nRespectfully yours,\n\n[Your Full Name]\n[Your Title (optional)]\n\nUse realistic example names/addresses. Never use placeholders.\n"

/-- Template chosen for tone informal in app.py lines 85-102. -/
def informalTemplate : String :=
  "\nYou are Prolet, a friendly letter-writing assistant.\n\nRespond in the **same language** as the user\x27s request.\n\nWrite a complete informal letter using this structure:\n\nHi [First Name],\n\n[Start with a warm opener, e.g., \"Hope you\x27re doing well!\"]\n\n[Body: Warm, conversational tone. Use contractions (\"I\x27m\", \"you\x27re\"). Be kind and personal.]\n\nThanks so much,  \n[Your First Name]\n\nUse realistic names. Never use placeholders like [Name].\n"

/-- Template chosen for any other tone in app.py lines 104-145. -/
def autoTemplate : String :=
  "\nYou are Prolet, a letter-writing assistant.\n\nRespond in the **same language** as the user\x27s request.\n\nAutomatically decide if the letter should be formal or informal based on the request.\n\n- For job, business, official matters → use FORMAL structure.\n- For friends, family, casual notes → use INFORMAL structure.\n\nFORMAL structure:\n[Your Full Name]\n[Your Address]\n[City, State ZIP Code]\n\n[Date]\n\n[Recipient Full Name]\n[Recipient Title]\n[Company/Organization Name]\n[Recipient Address]\n\nDear [Mr./Ms./Mx. Last Name],\n\n[Professional tone. 2–3 paragraphs.]\n\nRespectfully yours,\n\n[Your Full Name]\n\nINFORMAL structure:\nHi [First Name],\n\n[Warm opener]\n\n[Conversational body]\n\nThanks so much,  \n[Your First Name]\n\nUse realistic names/addresses. Never use placeholders.\n"

/-- Tone dispatch of the chat handler: the if/elif/else on lines 54-145. -/
def system_prompt (tone : String) : String :=
  if tone = "formal" then formalTemplate
  else if tone = "informal" then informalTemplate
  else autoTemplate

/-- Prompt construction of app.py line 147: stripped template, fixed
wrapper, the (already stripped) user message, fixed trailer. -/
def chat_prompt (tone user_message : String) : String :=
  pyStrip (system_prompt tone) ++ "\n\nUser request: \"" ++ user_message ++ "\"\n\nDraft the letter below:"

/-- Generic error body of the chat except branch, app.py line 157. -/
def chatGenericError : String := "Sorry, I\x27m having trouble right now."

/-- Handler of POST /api/chat, app.py lines 43-157.  The llm argument is
the external model.generate_content call: ok t is a response whose text
attribute is t, error e is a raised exception with text e. -/
def chat (body : ReqBody) (llm : String → Except String String) : Resp × List Event :=
  match body with
  | .absent => (⟨500, .error chatGenericError⟩, [])
  | .notObject => (⟨500, .error chatGenericError⟩, [])
  | .obj data =>
    let user_message := pyStrip (data.message.getD "")
    let tone := data.tone.getD "auto"
    if user_message = "" then
      (⟨400, .error "Message cannot be empty"⟩, [])
    else
      let prompt := chat_prompt tone user_message
      match llm prompt with
      | .error _ => (⟨500, .error chatGenericError⟩, [.llmCall prompt])
      | .ok text => (⟨200, .reply (pyStrip text)⟩, [.llmCall prompt])

/-- Generic error body of the send_email except branch, app.py line 197. -/
def emailGenericError : String := "Failed to send email. Please try again."

/-- Handler of POST /api/send-email, app.py lines 159-197.  The smtp
argument gives the outcome of the with-block of lines 186-189. -/
def send_email (body : ReqBody) (cfg : Config) (smtp : SmtpOutcome) : Resp × List Event :=
  match body with
  | .absent => (⟨500, .error emailGenericError⟩, [])
  | .notObject => (⟨500, .error emailGenericError⟩, [])
  | .obj data =>
    let letter := pyStrip (data.letter.getD "")
    let recipient := pyStrip (data.toAddr.getD "")
    if letter = "" ∨ recipient = "" then
      (⟨400, .error "Letter and recipient email are required"⟩, [])
    else
      let sender_email := cfg.mailUsername.getD ""
      let sender_password := cfg.mailAppPassword.getD ""
      if sender_email = "" ∨ sender_password = "" then
        (⟨500, .error "Email not configured. Check .env file."⟩, [])
      else
        match smtp with
        | .ok =>
          (⟨200, .success "Email sent successfully!"⟩,
           [.smtpConnect "smtp.gmail.com" 587, .smtpStarttls,
            .smtpLogin sender_email sender_password,
            .smtpSend sender_email recipient "Your Prolet Letter" letter, .smtpClose])
        | .failStarttls _ =>
          (⟨500, .error emailGenericError⟩,
           [.smtpConnect "smtp.gmail.com" 587, .smtpStarttls, .smtpClose])
        | .failLogin _ =>
          (⟨500, .error emailGenericError⟩,
           [.smtpConnect "smtp.gmail.com" 587, .smtpStarttls,
            .smtpLogin sender_email sender_password, .smtpClose])
        | .failSend _ =>
          (⟨500, .error emailGenericError⟩,
           [.smtpConnect "smtp.gmail.com" 587, .smtpStarttls,
            .smtpLogin sender_email sender_password,
            .smtpSend sender_email recipient "Your Prolet Letter" letter, .smtpClose])

/-- Text before the embedded letter in the analyze prompt, app.py lines 208-217. -/
def analyzePromptPrefix : String :=
  "\nYou are Prolet, a professional letter-editing AI assistant.\n\nAnalyze the following letter and provide 3–5 actionable suggestions to improve:\n- Tone (make it more formal/casual as needed)\n- Clarity (remove ambiguity, improve flow)\n- Professionalism (fix grammar, word choice, structure)\n\nLetter:\n"

/-- Text after the embedded letter in the analyze prompt, app.py lines 218-227. -/
def analyzePromptSuffix : String :=
  "\n\nRespond ONLY with bullet points. Do NOT add any other text.\n\nExample:\n- Use “Dear [Manager’s Name]” instead of “Hi” for a formal tone.\n- Break long sentences into shorter ones for clarity.\n- Replace “I’m writing to say I quit” with “I am writing to formally resign...”\n\nSuggestions:\n"

/-- Static fallback reply of app.py lines 234-238. -/
def analyzeFallback : String :=
  "\n- The letter is well-written but could be more formal. Consider using “Dear [Name]” instead of “Hi”.\n- Add a closing line like “Sincerely,” for professionalism.\n- Shorten long paragraphs for better readability.\n"

/-- Generic error body of the analyze except branch, app.py line 244. -/
def analyzeGenericError : String := "Failed to analyze letter. Please try again."

/-- Condition of the fallback guard in app.py line 233, applied to the
stripped model reply. -/
def analyzeFallbackCond (reply : String) : Prop :=
  reply = "" ∨ strContains reply "Suggestions:" = true ∨ reply.length < 10

instance (reply : String) : Decidable (analyzeFallbackCond reply) := by
  unfold analyzeFallbackCond
  infer_instance

/-- Handler of POST /api/analyze-letter, app.py lines 198-244. -/
def analyze_letter (body : ReqBody) (llm : String → Except String String) : Resp × List Event :=
  match body with
  | .absent => (⟨500, .error analyzeGenericError⟩, [])
  | .notObject => (⟨500, .error analyzeGenericError⟩, [])
  | .obj data =>
    let letter := pyStrip (data.letter.getD "")
    if letter = "" then
      (⟨400, .error "Please provide a letter to analyze."⟩, [])
    else
      let prompt := analyzePromptPrefix ++ letter ++ analyzePromptSuffix
      match llm prompt with
      | .error _ => (⟨500, .error analyzeGenericError⟩, [.llmCall prompt])
      | .ok text =>
        let reply := pyStrip text
        if analyzeFallbackCond reply then
          (⟨200, .reply analyzeFallback⟩, [.llmCall prompt])
        else
          (⟨200, .reply reply⟩, [.llmCall prompt])

/-- Recognizer for connect events in a trace. -/
def isSmtpConnectEv : Event → Bool
  | .smtpConnect _ _ => true
  | _ => false

/-- Recognizer for close events in a trace. -/
def isSmtpCloseEv : Event → Bool
  | .smtpClose => true
  | _ => false

set_option maxRecDepth 10000

theorem data_append (s t : String) : (s ++ t).data = s.data ++ t.data := by
  cases s
  cases t
  rfl

theorem startsWithL_append : ∀ (n h t : List Char),
    startsWithL n h = true → startsWithL n (h ++ t) = true
  | [], _, _, _ => rfl
  | _ :: _, [], _, hc => by simp [startsWithL] at hc
  | a :: as, b :: bs, t, hc => by
    simp only [startsWithL, Bool.and_eq_true] at hc
    simp only [List.cons_append, startsWithL, Bool.and_eq_true]
    exact ⟨hc.1, startsWithL_append as bs t hc.2⟩

theorem startsWithL_self_append : ∀ (n t : List Char), startsWithL n (n ++ t) = true
  | [], _ => rfl
  | a :: as, t => by
    simp only [List.cons_append, startsWithL, Bool.and_eq_true]
    exact ⟨by simp, startsWithL_self_append as t⟩

theorem occursL_nil : ∀ (l : List Char), occursL [] l = true
  | [] => rfl
  | _ :: bs => by simp [occursL, startsWithL]

theorem occursL_append_right : ∀ (n h t : List Char),
    occursL n h = true → occursL n (h ++ t) = true
  | n, [], t, hc => by
    cases n with
    | nil => exact occursL_nil t
    | cons a as => simp [occursL, startsWithL] at hc
  | n, b :: bs, t, hc => by
    simp only [occursL, Bool.or_eq_true] at hc
    simp only [List.cons_append, occursL, Bool.or_eq_true]
    cases hc with
    | inl hp => exact Or.inl (startsWithL_append n (b :: bs) t hp)
    | inr ho => exact Or.inr (occursL_append_right n bs t ho)

theorem occursL_append_left : ∀ (n h t : List Char),
    occursL n t = true → occursL n (h ++ t) = true
  | _, [], _, hc => hc
  | n, b :: bs, t, hc => by
    simp only [List.cons_append, occursL, Bool.or_eq_true]
    exact Or.inr (occursL_append_left n bs t hc)

theorem occursL_self_append (n t : List Char) : occursL n (n ++ t) = true := by
  cases n with
  | nil => exact occursL_nil t
  | cons a as =>
    simp only [List.cons_append, occursL, Bool.or_eq_true]
    exact Or.inl (startsWithL_self_append (a :: as) t)

theorem strContains_append_left (x y n : String) (h : strContains x n = true) :
    strContains (x ++ y) n = true := by
  unfold strContains at h ⊢
  rw [data_append]
  exact occursL_append_right n.data x.data y.data h

theorem strContains_embed (a w1 m w2 : String) :
    strContains (a ++ w1 ++ m ++ w2) m = true := by
  unfold strContains
  rw [data_append, data_append, data_append, List.append_assoc, List.append_assoc]
  exact occursL_append_left m.data a.data _
    (occursL_append_left m.data w1.data _ (occursL_self_append m.data w2.data))

theorem chat_trace (d : JsonObj) (llm : String → Except String String)
    (h : pyStrip (d.message.getD "") ≠ "") :
    (chat (.obj d) llm).snd =
      [Event.llmCall (chat_prompt (d.tone.getD "auto") (pyStrip (d.message.getD "")))] := by
  cases hllm : llm (chat_prompt (d.tone.getD "auto") (pyStrip (d.message.getD ""))) <;>
    simp [chat, h, hllm]

/-- C6: every POST /api/chat request whose message is missing, empty, or
whitespace-only after trimming is answered with HTTP 400 and the error body
Message cannot be empty, and no external text-generation call is made (the
event trace is empty). -/
theorem chat_rejects_blank_message (d : JsonObj) (llm : String → Except String String)
    (h : pyStrip (d.message.getD "") = "") :
    chat (.obj d) llm = (⟨400, .error "Message cannot be empty"⟩, []) := by
  simp [chat, h]

/-- C6 witness: a whitespace-only message is rejected with 400 and an
empty event trace. -/
theorem chat_rejects_blank_message_witness :
    chat (.obj ⟨some "   ", none, none, none⟩) (fun _ => Except.ok "x") =
      (⟨400, .error "Message cannot be empty"⟩, []) :=
  chat_rejects_blank_message ⟨some "   ", none, none, none⟩ (fun _ => Except.ok "x") (by decide)

/-- C7: every POST /api/analyze-letter request whose letter is missing or
empty after trimming is answered with HTTP 400 and the error body Please
provide a letter to analyze., and no external text-generation call is made
(the event trace is empty). -/
theorem analyze_rejects_blank_letter (d : JsonObj) (llm : String → Except String String)
    (h : pyStrip (d.letter.getD "") = "") :
    analyze_letter (.obj d) llm = (⟨400, .error "Please provide a letter to analyze."⟩, []) := by
  simp [analyze_letter, h]

/-- C7 witness: a missing letter field is rejected with 400 and an empty
event trace. -/
theorem analyze_rejects_blank_letter_witness :
    analyze_letter (.obj ⟨none, none, none, none⟩) (fun _ => Except.ok "x") =
      (⟨400, .error "Please provide a letter to analyze."⟩, []) :=
  analyze_rejects_blank_letter ⟨none, none, none, none⟩ (fun _ => Except.ok "x") (by decide)

/-- C10: for a request body that is absent, unparsable, or not a JSON
object, the field access raises inside the try block and each of the three
endpoints returns its generic HTTP 500 error with no external call, rather
than a 400 validation error. -/
theorem non_object_body_gives_500 (llm : String → Except String String)
    (cfg : Config) (out : SmtpOutcome) :
    chat .absent llm = (⟨500, .error chatGenericError⟩, []) ∧
    chat .notObject llm = (⟨500, .error chatGenericError⟩, []) ∧
    send_email .absent cfg out = (⟨500, .error emailGenericError⟩, []) ∧
    send_email .notObject cfg out = (⟨500, .error emailGenericError⟩, []) ∧
    analyze_letter .absent llm = (⟨500, .error analyzeGenericError⟩, []) ∧
    analyze_letter .notObject llm = (⟨500, .error analyzeGenericError⟩, []) :=
  ⟨rfl, rfl, rfl, rfl, rfl, rfl⟩

/-- C4: for a non-empty letter, when the trimmed text returned by the
external call is empty, contains the literal marker Suggestions:, or is
shorter than 10 characters, the 200 response carries the static fallback
reply; otherwise it carries the trimmed model output. -/
theorem analyze_fallback_substitution (d : JsonObj) (text : String)
    (h : pyStrip (d.letter.getD "") ≠ "") :
    (analyzeFallbackCond (pyStrip text) →
      (analyze_letter (.obj d) (fun _ => Except.ok text)).fst = ⟨200, .reply analyzeFallback⟩) ∧
    (¬ analyzeFallbackCond (pyStrip text) →
      (analyze_letter (.obj d) (fun _ => Except.ok text)).fst = ⟨200, .reply (pyStrip text)⟩) := by
  constructor <;> intro hc <;> simp [analyze_letter, h, hc]

/-- C4 witness: an empty model reply for a concrete letter is replaced by
the static fallback text. -/
theorem analyze_fallback_substitution_witness :
    (analyze_letter (.obj ⟨none, none, some "Dear Bob, please fix the sink.", none⟩)
        (fun _ => Except.ok "")).fst = ⟨200, .reply analyzeFallback⟩ :=
  (analyze_fallback_substitution ⟨none, none, some "Dear Bob, please fix the sink.", none⟩ ""
    (by decide)).1 (by decide)

/-- C8: any exception raised by the external LLM call or by the SMTP
session is answered with HTTP 500 carrying the fixed generic message of the
endpoint; the equations hold for every exception text e, so the response
body is a constant that never depends on or contains the underlying
exception text (which app.py only prints server-side). -/
theorem external_exception_gives_generic_500 (d : JsonObj) (cfg : Config) (e : String)
    (hm : pyStrip (d.message.getD "") ≠ "")
    (hl : pyStrip (d.letter.getD "") ≠ "")
    (hr : pyStrip (d.toAddr.getD "") ≠ "")
    (hu : cfg.mailUsername.getD "" ≠ "")
    (hp : cfg.mailAppPassword.getD "" ≠ "") :
    (chat (.obj d) (fun _ => Except.error e)).fst = ⟨500, .error chatGenericError⟩ ∧
    (analyze_letter (.obj d) (fun _ => Except.error e)).fst = ⟨500, .error analyzeGenericError⟩ ∧
    (send_email (.obj d) cfg (.failStarttls e)).fst = ⟨500, .error emailGenericError⟩ ∧
    (send_email (.obj d) cfg (.failLogin e)).fst = ⟨500, .error emailGenericError⟩ ∧
    (send_email (.obj d) cfg (.failSend e)).fst = ⟨500, .error emailGenericError⟩ := by
  refine ⟨?_, ?_, ?_, ?_, ?_⟩ <;> simp [chat, analyze_letter, send_email, hm, hl, hr, hu, hp]

/-- C8 witness: a concrete exception text at each endpoint yields the fixed
generic 500 bodies. -/
theorem external_exception_gives_generic_500_witness :
    (chat (.obj ⟨some "hi there", none, some "Dear Bob, fix the sink.", some "bob@example.com"⟩)
        (fun _ => Except.error "Connection refused")).fst = ⟨500, .error chatGenericError⟩ ∧
    (analyze_letter (.obj ⟨some "hi there", none, some "Dear Bob, fix the sink.", some "bob@example.com"⟩)
        (fun _ => Except.error "Connection refused")).fst = ⟨500, .error analyzeGenericError⟩ ∧
    (send_email (.obj ⟨some "hi there", none, some "Dear Bob, fix the sink.", some "bob@example.com"⟩)
        ⟨some "prolet.app@gmail.com", some "hunter2hunter2"⟩
        (.failStarttls "Connection refused")).fst = ⟨500, .error emailGenericError⟩ ∧
    (send_email (.obj ⟨some "hi there", none, some "Dear Bob, fix the sink.", some "bob@example.com"⟩)
        ⟨some "prolet.app@gmail.com", some "hunter2hunter2"⟩
        (.failLogin "Connection refused")).fst = ⟨500, .error emailGenericError⟩ ∧
    (send_email (.obj ⟨some "hi there", none, some "Dear Bob, fix the sink.", some "bob@example.com"⟩)
        ⟨some "prolet.app@gmail.com", some "hunter2hunter2"⟩
        (.failSend "Connection refused")).fst = ⟨500, .error emailGenericError⟩ :=
  external_exception_gives_generic_500
    ⟨some "hi there", none, some "Dear Bob, fix the sink.", some "bob@example.com"⟩
    ⟨some "prolet.app@gmail.com", some "hunter2hunter2"⟩ "Connection refused"
    (by decide) (by decide) (by decide) (by decide) (by decide)

/-- C2 counterexample: with sender credentials missing from configuration
and the letter missing from the payload, /api/send-email answers 400 from
input validation, not 500 with the configuration error message. -/
theorem send_email_missing_config_cex :
    send_email (.obj ⟨none, none, none, some "bob@example.com"⟩) ⟨none, none⟩ .ok =
      (⟨400, .error "Letter and recipient email are required"⟩, []) ∧
    (send_email (.obj ⟨none, none, none, some "bob@example.com"⟩) ⟨none, none⟩ .ok).fst.status ≠ 500 ∧
    (send_email (.obj ⟨none, none, none, some "bob@example.com"⟩) ⟨none, none⟩ .ok).fst ≠
      ⟨500, .error "Email not configured. Check .env file."⟩ := by
  refine ⟨?_, ?_, ?_⟩ <;> decide

/-- C2 amended: when letter and recipient are both non-empty after trimming
(the recipient may have any shape), a missing sender email or sender
password yields HTTP 500 with the configuration error message and no SMTP
activity; but when the letter or the recipient is missing or empty, the 400
validation error is returned first, even with missing credentials. -/
theorem send_email_missing_config :
    (∀ (d : JsonObj) (cfg : Config) (out : SmtpOutcome),
      pyStrip (d.letter.getD "") ≠ "" → pyStrip (d.toAddr.getD "") ≠ "" →
      (cfg.mailUsername.getD "" = "" ∨ cfg.mailAppPassword.getD "" = "") →
      send_email (.obj d) cfg out = (⟨500, .error "Email not configured. Check .env file."⟩, [])) ∧
    (∀ (d : JsonObj) (cfg : Config) (out : SmtpOutcome),
      (pyStrip (d.letter.getD "") = "" ∨ pyStrip (d.toAddr.getD "") = "") →
      send_email (.obj d) cfg out = (⟨400, .error "Letter and recipient email are required"⟩, [])) := by
  constructor
  · intro d cfg out hl hr hc
    rcases hc with hc | hc <;> simp [send_email, hl, hr, hc]
  · intro d cfg out hv
    rcases hv with hv | hv <;> simp [send_email, hv]

/-- C2 amended witness: a malformed but non-empty recipient with missing
credentials yields the configuration 500; an empty letter yields the 400. -/
theorem send_email_missing_config_witness :
    send_email (.obj ⟨none, none, some "Hi Bob...", some "not-an-email"⟩) ⟨none, some "pw"⟩ .ok =
      (⟨500, .error "Email not configured. Check .env file."⟩, []) ∧
    send_email (.obj ⟨none, none, some "", some "bob@example.com"⟩) ⟨none, none⟩ .ok =
      (⟨400, .error "Letter and recipient email are required"⟩, []) :=
  ⟨send_email_missing_config.1 ⟨none, none, some "Hi Bob...", some "not-an-email"⟩
      ⟨none, some "pw"⟩ .ok (by decide) (by decide) (by decide),
   send_email_missing_config.2 ⟨none, none, some "", some "bob@example.com"⟩
      ⟨none, none⟩ .ok (by decide)⟩

/-- C9: whenever /api/send-email reaches the sending step, the trace of the
request is exactly one connect to smtp.gmail.com on port 587, followed by
the STARTTLS upgrade and session operations containing no further connect
or close, and a final close before the handler returns - for the successful
outcome and for each outcome where starttls, login or send_message raises. -/
theorem send_email_smtp_scoped (d : JsonObj) (cfg : Config) (out : SmtpOutcome)
    (hl : pyStrip (d.letter.getD "") ≠ "") (hr : pyStrip (d.toAddr.getD "") ≠ "")
    (hu : cfg.mailUsername.getD "" ≠ "") (hp : cfg.mailAppPassword.getD "" ≠ "") :
    ∃ mid : List Event,
      (send_email (.obj d) cfg out).snd =
        Event.smtpConnect "smtp.gmail.com" 587 :: (Event.smtpStarttls :: mid) ++ [Event.smtpClose] ∧
      (Event.smtpStarttls :: mid).all (fun ev => !isSmtpConnectEv ev && !isSmtpCloseEv ev) = true := by
  cases out with
  | ok =>
    refine ⟨[.smtpLogin (cfg.mailUsername.getD "") (cfg.mailAppPassword.getD ""),
             .smtpSend (cfg.mailUsername.getD "") (pyStrip (d.toAddr.getD ""))
               "Your Prolet Letter" (pyStrip (d.letter.getD ""))], ?_, ?_⟩ <;>
      simp [send_email, hl, hr, hu, hp, isSmtpConnectEv, isSmtpCloseEv]
  | failStarttls e =>
    refine ⟨[], ?_, ?_⟩ <;>
      simp [send_email, hl, hr, hu, hp, isSmtpConnectEv, isSmtpCloseEv]
  | failLogin e =>
    refine ⟨[.smtpLogin (cfg.mailUsername.getD "") (cfg.mailAppPassword.getD "")], ?_, ?_⟩ <;>
      simp [send_email, hl, hr, hu, hp, isSmtpConnectEv, isSmtpCloseEv]
  | failSend e =>
    refine ⟨[.smtpLogin (cfg.mailUsername.getD "") (cfg.mailAppPassword.getD ""),
             .smtpSend (cfg.mailUsername.getD "") (pyStrip (d.toAddr.getD ""))
               "Your Prolet Letter" (pyStrip (d.letter.getD ""))], ?_, ?_⟩ <;>
      simp [send_email, hl, hr, hu, hp, isSmtpConnectEv, isSmtpCloseEv]

/-- C9 witness: a concrete request whose login raises still produces a
trace with a single connect to the fixed relay and a final close. -/
theorem send_email_smtp_scoped_witness :
    ∃ mid : List Event,
      (send_email (.obj ⟨none, none, some "Hi Bob...", some "bob@example.com"⟩)
          ⟨some "prolet.app@gmail.com", some "hunter2hunter2"⟩
          (.failLogin "535 bad credentials")).snd =
        Event.smtpConnect "smtp.gmail.com" 587 :: (Event.smtpStarttls :: mid) ++ [Event.smtpClose] ∧
      (Event.smtpStarttls :: mid).all (fun ev => !isSmtpConnectEv ev && !isSmtpCloseEv ev) = true :=
  send_email_smtp_scoped ⟨none, none, some "Hi Bob...", some "bob@example.com"⟩
    ⟨some "prolet.app@gmail.com", some "hunter2hunter2"⟩ (.failLogin "535 bad credentials")
    (by decide) (by decide) (by decide) (by decide)

/-- C1 counterexample: a request with a non-empty letter and the recipient
not-an-email, which does not match a user@domain.tld shape, is not answered
with 400 Invalid email address; with credentials configured the handler
proceeds, an SMTP connection is attempted and the endpoint answers 200. -/
theorem send_email_shape_check_cex :
    (send_email (.obj ⟨none, none, some "Hi Bob...", some "not-an-email"⟩)
        ⟨some "prolet.app@gmail.com", some "hunter2hunter2"⟩ .ok).fst ≠
      ⟨400, RespBody.error "Invalid email address"⟩ ∧
    (send_email (.obj ⟨none, none, some "Hi Bob...", some "not-an-email"⟩)
        ⟨some "prolet.app@gmail.com", some "hunter2hunter2"⟩ .ok).fst.status = 200 ∧
    (send_email (.obj ⟨none, none, some "Hi Bob...", some "not-an-email"⟩)
        ⟨some "prolet.app@gmail.com", some "hunter2hunter2"⟩ .ok).snd.head? =
      some (Event.smtpConnect "smtp.gmail.com" 587) := by
  refine ⟨?_, ?_, ?_⟩ <;> decide

/-- C1 amended: the endpoint performs no email-shape validation at all: no
response of /api/send-email ever carries the error body Invalid email
address, and for every request with a non-empty letter, a non-empty
recipient of any shape, and configured credentials, an SMTP connection is
attempted. -/
theorem send_email_no_shape_validation :
    (∀ (b : ReqBody) (cfg : Config) (out : SmtpOutcome),
      (send_email b cfg out).fst.body ≠ RespBody.error "Invalid email address") ∧
    (∀ (d : JsonObj) (cfg : Config) (out : SmtpOutcome),
      pyStrip (d.letter.getD "") ≠ "" → pyStrip (d.toAddr.getD "") ≠ "" →
      cfg.mailUsername.getD "" ≠ "" → cfg.mailAppPassword.getD "" ≠ "" →
      (send_email (.obj d) cfg out).snd.head? =
        some (Event.smtpConnect "smtp.gmail.com" 587)) := by
  constructor
  · rintro (_ | _ | d) cfg out
    · simp [send_email, emailGenericError]
    · simp [send_email, emailGenericError]
    · by_cases h1 : pyStrip (d.letter.getD "") = "" ∨ pyStrip (d.toAddr.getD "") = ""
      · simp [send_email, h1]
      · by_cases h2 : cfg.mailUsername.getD "" = "" ∨ cfg.mailAppPassword.getD "" = ""
        · simp [send_email, h1, h2]
        · cases out <;> simp [send_email, h1, h2, emailGenericError]
  · intro d cfg out hl hr hu hp
    cases out <;> simp [send_email, hl, hr, hu, hp]

/-- C1 amended witness: the concrete malformed recipient passes validation
and an SMTP connection is attempted; the Invalid email address body does
not occur. -/
theorem send_email_no_shape_validation_witness :
    (send_email (.obj ⟨none, none, some "Hi Bob...", some "not-an-email"⟩)
        ⟨some "prolet.app@gmail.com", some "hunter2hunter2"⟩ .ok).fst.body ≠
      RespBody.error "Invalid email address" ∧
    (send_email (.obj ⟨none, none, some "Hi Bob...", some "not-an-email"⟩)
        ⟨some "prolet.app@gmail.com", some "hunter2hunter2"⟩ .ok).snd.head? =
      some (Event.smtpConnect "smtp.gmail.com" 587) :=
  ⟨send_email_no_shape_validation.1 (.obj ⟨none, none, some "Hi Bob...", some "not-an-email"⟩)
      ⟨some "prolet.app@gmail.com", some "hunter2hunter2"⟩ .ok,
   send_email_no_shape_validation.2 ⟨none, none, some "Hi Bob...", some "not-an-email"⟩
      ⟨some "prolet.app@gmail.com", some "hunter2hunter2"⟩ .ok
      (by decide) (by decide) (by decide) (by decide)⟩

/-- C3 counterexample: for the message hello with the default tone, the
prompt sent to the model is not the selected template with the trimmed
message appended at the end: fixed wrapper text follows the message, so the
prompt neither ends with the message nor equals the stripped template with
the message appended. -/
theorem chat_prompt_not_message_final_cex :
    (chat (.obj ⟨some "hello", none, none, none⟩) (fun _ => Except.ok "x")).snd =
      [Event.llmCall (chat_prompt "auto" "hello")] ∧
    strEndsWith (chat_prompt "auto" "hello") "hello" = false ∧
    chat_prompt "auto" "hello" ≠ pyStrip (system_prompt "auto") ++ "hello" := by
  refine ⟨?_, ?_, ?_⟩ <;> decide

/-- C3 amended: for every non-empty message and every tone, the prompt sent
to the model is the stripped tone-selected template, then the fixed wrapper
text User request: with an opening quote, then the trimmed user message
verbatim, then the fixed trailer Draft the letter below:.  The trimmed
message occurs verbatim in the prompt - no escaping, sanitization or length
limiting beyond trimming - but fixed text follows it, so it is not at the
end. -/
theorem chat_prompt_structure (d : JsonObj) (llm : String → Except String String)
    (h : pyStrip (d.message.getD "") ≠ "") :
    (chat (.obj d) llm).snd =
      [Event.llmCall (pyStrip (system_prompt (d.tone.getD "auto")) ++ "\n\nUser request: \"" ++
        pyStrip (d.message.getD "") ++ "\"\n\nDraft the letter below:")] ∧
    strContains (pyStrip (system_prompt (d.tone.getD "auto")) ++ "\n\nUser request: \"" ++
        pyStrip (d.message.getD "") ++ "\"\n\nDraft the letter below:")
      (pyStrip (d.message.getD "")) = true := by
  constructor
  · rw [chat_trace d llm h]; rfl
  · exact strContains_embed _ _ _ _

/-- C3 amended witness: a concrete padded message under tone formal is sent
as the stripped formal template, the wrapper, the trimmed message and the
trailer, and occurs verbatim in the prompt. -/
theorem chat_prompt_structure_witness :
    (chat (.obj ⟨some "  hello there  ", some "formal", none, none⟩)
        (fun _ => Except.ok "x")).snd =
      [Event.llmCall (pyStrip (system_prompt "formal") ++ "\n\nUser request: \"" ++
        pyStrip "  hello there  " ++ "\"\n\nDraft the letter below:")] ∧
    strContains (pyStrip (system_prompt "formal") ++ "\n\nUser request: \"" ++
        pyStrip "  hello there  " ++ "\"\n\nDraft the letter below:")
      (pyStrip "  hello there  ") = true :=
  chat_prompt_structure ⟨some "  hello there  ", some "formal", none, none⟩
    (fun _ => Except.ok "x") (by decide)

/-- C5: tone formal and tone informal each select their own hard-coded
template, whose distinguishing marker appears in every produced prompt and
in no other template; tone auto, an omitted tone field, and every
unrecognized tone value all select the auto template. -/
theorem chat_tone_selection :
    (system_prompt "formal" = formalTemplate ∧ system_prompt "informal" = informalTemplate ∧
     system_prompt "auto" = autoTemplate) ∧
    (∀ t : String, t ≠ "formal" → t ≠ "informal" → system_prompt t = autoTemplate) ∧
    (∀ (d : JsonObj) (llm : String → Except String String), d.tone = none →
      pyStrip (d.message.getD "") ≠ "" →
      (chat (.obj d) llm).snd =
        [Event.llmCall (chat_prompt "auto" (pyStrip (d.message.getD "")))]) ∧
    (∀ m : String,
      strContains (chat_prompt "formal" m) "Write a complete formal business letter" = true ∧
      strContains (chat_prompt "informal" m) "Write a complete informal letter" = true ∧
      strContains (chat_prompt "auto" m)
        "Automatically decide if the letter should be formal or informal" = true) ∧
    (strContains informalTemplate "Write a complete formal business letter" = false ∧
     strContains autoTemplate "Write a complete formal business letter" = false ∧
     strContains formalTemplate "Write a complete informal letter" = false ∧
     strContains autoTemplate "Write a complete informal letter" = false ∧
     strContains formalTemplate
       "Automatically decide if the letter should be formal or informal" = false ∧
     strContains informalTemplate
       "Automatically decide if the letter should be formal or informal" = false) := by
  refine ⟨⟨rfl, rfl, rfl⟩, ?_, ?_, ?_, ?_⟩
  · intro t h1 h2
    rw [system_prompt, if_neg h1, if_neg h2]
  · intro d llm hd hm
    have ht : d.tone.getD "auto" = "auto" := by rw [hd]; rfl
    rw [chat_trace d llm hm, ht]
  · intro m
    unfold chat_prompt
    refine ⟨?_, ?_, ?_⟩ <;>
      exact strContains_append_left _ _ _ (strContains_append_left _ _ _
        (strContains_append_left _ _ _ (by decide)))
  · refine ⟨?_, ?_, ?_, ?_, ?_, ?_⟩ <;> decide

/-- C5 witness: the unrecognized tone casual selects the auto template, and
a concrete request with no tone field sends the auto prompt. -/
theorem chat_tone_selection_witness :
    system_prompt "casual" = autoTemplate ∧
    (chat (.obj ⟨some "write to my friend", none, none, none⟩)
        (fun _ => Except.ok "x")).snd =
      [Event.llmCall (chat_prompt "auto" (pyStrip "write to my friend"))] :=
  ⟨chat_tone_selection.2.1 "casual" (by decide) (by decide),
   chat_tone_selection.2.2.1 ⟨some "write to my friend", none, none, none⟩
     (fun _ => Except.ok "x") rfl (by decide)⟩

end Prolet
